import Mathlib

/-!
Shallow embedding of the BondBridge credit-line contract
(`src/contracts/credit_line/src/lib.rs`) together with the token-transfer
semantics it relies on (`src/contracts/mock_usdc/src/lib.rs`).

Modelling choices:
* `Address` values are opaque identities, modelled as `Nat`.
* Rust `i128` fields are modelled as unbounded `Int` (the spec calls them
  "signed large integer"); Rust `/` on `i128` truncates toward zero, which is
  `Int.tdiv`.
* Contract storage (instance + persistent) is an explicit `State` record.
* A Rust `panic!` (and a failed `require_auth` or a failing token transfer,
  which trap in the host) aborts the whole invocation with no state change;
  this is the `Outcome.panic` branch, which always returns the pre-state.
* Recoverable errors (`Result::Err`) are `Outcome.err`; the functions return
  the pre-state unchanged on those paths, exactly as the source does (it only
  persists at the end of the success path).
* Each call runs with a `CallCtx`: the set of identities that authorized the
  call, the ledger timestamp, and the contract's own address.  The mock
  token's `transfer` requires authorization of `from`; a contract invoking a
  transfer from its own address is automatically authorized.
-/

namespace BondBridge

/-- On-chain identities (`soroban_sdk::Address`), modelled as opaque numbers. -/
abbrev Addr := Nat

/-- The `Error` enum of `credit_line/src/lib.rs`. -/
inductive Error where
  | NotInitialized
  | AlreadyInitialized
  | InsufficientCollateral
  | ExceedsCreditLimit
  | InsufficientBalance
deriving DecidableEq, Repr

/-- The `UserPosition` struct of `credit_line/src/lib.rs`. -/
structure UserPosition where
  collateral : Int
  borrowed : Int
  last_update : Nat
deriving DecidableEq, Repr

/-- Result of one contract invocation: success, a structured error
(`Result::Err`), or a fatal abort (`panic!` / trapped host call). -/
inductive Outcome where
  | ok
  | err (e : Error)
  | panic
deriving DecidableEq, Repr

/-- Contract storage: the instance entries of the credit-line contract
(`Admin`, `BenjiToken`, `UsdcToken`, `LtvRatio`), its persistent
`UserPosition(addr)` entries, and the balance books of the token contracts
(`bal tok holder`, the `Balance(holder)` entry of the token deployed at
address `tok`). -/
structure State where
  admin : Option Addr
  benjiToken : Option Addr
  usdcToken : Option Addr
  ltvRatio : Option Nat
  positions : Addr → Option UserPosition
  bal : Addr → Addr → Int

/-- Per-call environment: which identities authorized this call
(`require_auth` succeeds), the ledger timestamp, and
`env.current_contract_address()` of the credit-line contract. -/
structure CallCtx where
  auth : Addr → Bool
  now : Nat
  contractAddr : Addr

/-- Write one balance entry of one token's book. -/
def setBal (bal : Addr → Addr → Int) (tok holder : Addr) (v : Int) :
    Addr → Addr → Int :=
  fun t h => if t = tok ∧ h = holder then v else bal t h

/-- Store a user's position. -/
def setPos (ps : Addr → Option UserPosition) (user : Addr) (p : UserPosition) :
    Addr → Option UserPosition :=
  fun u => if u = user then some p else ps u

/-- `from.require_auth()` inside a token contract invoked by the credit-line
contract: granted when `from` is the invoking contract itself, or when the
call carries `from`'s authorization. -/
def transferAuth (ctx : CallCtx) (a : Addr) : Bool :=
  a == ctx.contractAddr || ctx.auth a

/-- The `transfer` of `mock_usdc/src/lib.rs` (both token contracts run this
code): requires `from`'s authorization, panics on negative amount or
insufficient balance, otherwise debits `from` and credits `to` (the `to`
balance is read before the `from` write, as in the source).  `none` models
the panic, which aborts the whole invocation. -/
def tokenTransfer (ctx : CallCtx) (bal : Addr → Addr → Int)
    (tok fromAddr toAddr : Addr) (amount : Int) :
    Option (Addr → Addr → Int) :=
  if ¬ transferAuth ctx fromAddr then none
  else if amount < 0 then none
  else
    let from_balance := bal tok fromAddr
    let to_balance := bal tok toAddr
    if from_balance < amount then none
    else some (setBal (setBal bal tok fromAddr (from_balance - amount))
      tok toAddr (to_balance + amount))

/-- `(collateral * ltv_ratio as i128) / 10000` with Rust `i128` division
(truncation toward zero). -/
def creditLimit (collateral : Int) (ltv : Nat) : Int :=
  Int.tdiv (collateral * (ltv : Int)) 10000

/-- `CreditLineContract::initialize`.  Note: the source performs no
`require_auth`, so no `CallCtx` is consulted. -/
def initializeContract (admin benji_token usdc_token : Addr) (s : State) :
    Outcome × State :=
  if (s.admin).isSome then (Outcome.err Error.AlreadyInitialized, s)
  else
    (Outcome.ok,
      { s with
        admin := some admin
        benjiToken := some benji_token
        usdcToken := some usdc_token
        ltvRatio := some 7000 })

/-- `CreditLineContract::deposit_collateral`. -/
def deposit_collateral (ctx : CallCtx) (user : Addr) (amount : Int)
    (s : State) : Outcome × State :=
  if ¬ ctx.auth user then (Outcome.panic, s)
  else if amount ≤ 0 then (Outcome.panic, s)
  else
    match s.benjiToken with
    | none => (Outcome.err Error.NotInitialized, s)
    | some benji_token =>
      match tokenTransfer ctx s.bal benji_token user ctx.contractAddr amount with
      | none => (Outcome.panic, s)
      | some bal' =>
        let position := (s.positions user).getD
          { collateral := 0, borrowed := 0, last_update := ctx.now }
        (Outcome.ok,
          { s with
            bal := bal'
            positions := setPos s.positions user
              { position with
                collateral := position.collateral + amount
                last_update := ctx.now } })

/-- `CreditLineContract::borrow`. -/
def borrow (ctx : CallCtx) (user : Addr) (amount : Int) (s : State) :
    Outcome × State :=
  if ¬ ctx.auth user then (Outcome.panic, s)
  else if amount ≤ 0 then (Outcome.panic, s)
  else
    match s.positions user with
    | none => (Outcome.err Error.InsufficientCollateral, s)
    | some position =>
      let ltv_ratio := (s.ltvRatio).getD 7000
      let credit_limit := creditLimit position.collateral ltv_ratio
      if position.borrowed + amount > credit_limit then
        (Outcome.err Error.ExceedsCreditLimit, s)
      else
        match s.usdcToken with
        | none => (Outcome.err Error.NotInitialized, s)
        | some usdc_token =>
          match tokenTransfer ctx s.bal usdc_token ctx.contractAddr user amount with
          | none => (Outcome.panic, s)
          | some bal' =>
            (Outcome.ok,
              { s with
                bal := bal'
                positions := setPos s.positions user
                  { position with
                    borrowed := position.borrowed + amount
                    last_update := ctx.now } })

/-- `CreditLineContract::repay`. -/
def repay (ctx : CallCtx) (user : Addr) (amount : Int) (s : State) :
    Outcome × State :=
  if ¬ ctx.auth user then (Outcome.panic, s)
  else if amount ≤ 0 then (Outcome.panic, s)
  else
    match s.positions user with
    | none => (Outcome.err Error.NotInitialized, s)
    | some position =>
      if position.borrowed < amount then (Outcome.panic, s)
      else
        match s.usdcToken with
        | none => (Outcome.err Error.NotInitialized, s)
        | some usdc_token =>
          match tokenTransfer ctx s.bal usdc_token user ctx.contractAddr amount with
          | none => (Outcome.panic, s)
          | some bal' =>
            (Outcome.ok,
              { s with
                bal := bal'
                positions := setPos s.positions user
                  { position with
                    borrowed := position.borrowed - amount
                    last_update := ctx.now } })

/-- `CreditLineContract::withdraw_collateral`. -/
def withdraw_collateral (ctx : CallCtx) (user : Addr) (amount : Int)
    (s : State) : Outcome × State :=
  if ¬ ctx.auth user then (Outcome.panic, s)
  else if amount ≤ 0 then (Outcome.panic, s)
  else
    match s.positions user with
    | none => (Outcome.err Error.NotInitialized, s)
    | some position =>
      if position.collateral < amount then
        (Outcome.err Error.InsufficientBalance, s)
      else
        let new_collateral := position.collateral - amount
        let ltv_ratio := (s.ltvRatio).getD 7000
        let credit_limit := creditLimit new_collateral ltv_ratio
        if position.borrowed > credit_limit then
          (Outcome.err Error.InsufficientCollateral, s)
        else
          match s.benjiToken with
          | none => (Outcome.err Error.NotInitialized, s)
          | some benji_token =>
            match tokenTransfer ctx s.bal benji_token ctx.contractAddr user amount with
            | none => (Outcome.panic, s)
            | some bal' =>
              (Outcome.ok,
                { s with
                  bal := bal'
                  positions := setPos s.positions user
                    { position with
                      collateral := position.collateral - amount
                      last_update := ctx.now } })

/-- `CreditLineContract::get_position`. -/
def get_position (ctx : CallCtx) (user : Addr) (s : State) : UserPosition :=
  (s.positions user).getD
    { collateral := 0, borrowed := 0, last_update := ctx.now }

/-- `CreditLineContract::get_available_credit`. -/
def get_available_credit (ctx : CallCtx) (user : Addr) (s : State) : Int :=
  let position := get_position ctx user s
  let ltv_ratio := (s.ltvRatio).getD 7000
  let credit_limit := creditLimit position.collateral ltv_ratio
  let available := credit_limit - position.borrowed
  if available < 0 then 0 else available

/-- One public operation of the credit-line contract. -/
inductive Op where
  | opInit (admin benji usdc : Addr)
  | opDeposit (user : Addr) (amount : Int)
  | opBorrow (user : Addr) (amount : Int)
  | opRepay (user : Addr) (amount : Int)
  | opWithdraw (user : Addr) (amount : Int)

/-- The state after one completed invocation (failed invocations leave the
state unchanged, as each operation returns the pre-state on error/panic). -/
def step (ctx : CallCtx) (op : Op) (s : State) : State :=
  match op with
  | .opInit a b u => (initializeContract a b u s).2
  | .opDeposit u a => (deposit_collateral ctx u a s).2
  | .opBorrow u a => (borrow ctx u a s).2
  | .opRepay u a => (repay ctx u a s).2
  | .opWithdraw u a => (withdraw_collateral ctx u a s).2

/-- The empty contract state: nothing stored yet; the external token books
start at an arbitrary `bal0`. -/
def initState (bal0 : Addr → Addr → Int) : State :=
  { admin := none
    benjiToken := none
    usdcToken := none
    ltvRatio := none
    positions := fun _ => none
    bal := bal0 }

/-- Run a sequence of public operations from the empty state, each under its
own call context. -/
def run (bal0 : Addr → Addr → Int) (l : List (CallCtx × Op)) : State :=
  l.foldl (fun s p => step p.1 p.2 s) (initState bal0)

/-- The per-position solvency invariant at a given LTV ratio. -/
def PosInv (ltv : Nat) (p : UserPosition) : Prop :=
  0 ≤ p.collateral ∧ 0 ≤ p.borrowed ∧ p.borrowed ≤ creditLimit p.collateral ltv

/-- The global invariant: the effective LTV ratio is 7000 and every stored
position is solvent at it. -/
def StateInv (s : State) : Prop :=
  (s.ltvRatio).getD 7000 = 7000 ∧ ∀ u p, s.positions u = some p → PosInv 7000 p

/-- A call context in which every identity has authorized the call. -/
def allAuthCtx : CallCtx := { auth := fun _ => true, now := 0, contractAddr := 99 }

/-- A call context carrying no authorization at all. -/
def noAuthCtx : CallCtx := { auth := fun _ => false, now := 0, contractAddr := 99 }

/-- Concrete initial token books: user 3 holds the collateral token
(deployed at address 1) and the contract (address 99) holds the borrowed
token (deployed at address 2). -/
def demoBal : Addr → Addr → Int := fun t h =>
  if t = 1 ∧ h = 3 then 1000000 else if t = 2 ∧ h = 99 then 1000000 else 0

/-- The spec's running scenario: initialize, deposit 1000, borrow 700. -/
def demoOps : List (CallCtx × Op) :=
  [(allAuthCtx, .opInit 0 1 2), (allAuthCtx, .opDeposit 3 1000),
   (allAuthCtx, .opBorrow 3 700)]

/-- The position reached by the running scenario. -/
def demoPos : UserPosition := { collateral := 1000, borrowed := 700, last_update := 0 }

/-- The state reached by the running scenario. -/
def demoState : State := run demoBal demoOps

/-- The state reached after initialize and deposit 1000 only. -/
def depositedState : State := run demoBal (demoOps.take 2)

/-- A small initialized state: LTV 7000, user 3 holding collateral 5 with
nothing borrowed, every account holding 100 of the collateral token. -/
def smallState : State :=
  { admin := some 0
    benjiToken := some 1
    usdcToken := some 2
    ltvRatio := some 7000
    positions := fun u => if u = 3 then
        some { collateral := 5, borrowed := 0, last_update := 0 } else none
    bal := fun t _ => if t = 1 then 100 else 0 }

theorem creditLimit_eq_ediv {c : Int} (ltv : Nat) (hc : 0 ≤ c) :
    creditLimit c ltv = c * (ltv : Int) / 10000 :=
  Int.tdiv_eq_ediv (mul_nonneg hc (Int.natCast_nonneg ltv)) (by norm_num)

theorem creditLimit_nonneg {c : Int} (ltv : Nat) (hc : 0 ≤ c) :
    0 ≤ creditLimit c ltv := by
  rw [creditLimit_eq_ediv ltv hc]
  exact Int.ediv_nonneg (mul_nonneg hc (Int.natCast_nonneg ltv)) (by norm_num)

theorem creditLimit_le_creditLimit {c c' : Int} (ltv : Nat) (hc : 0 ≤ c)
    (h : c ≤ c') : creditLimit c ltv ≤ creditLimit c' ltv := by
  rw [creditLimit_eq_ediv ltv hc, creditLimit_eq_ediv ltv (hc.trans h)]
  exact Int.ediv_le_ediv (by norm_num)
    (mul_le_mul_of_nonneg_right h (Int.natCast_nonneg ltv))

theorem creditLimit_add_bounds {c a : Int} (ltv : Nat) (hc : 0 ≤ c)
    (ha : 0 ≤ a) :
    creditLimit c ltv + creditLimit a ltv ≤ creditLimit (c + a) ltv ∧
    creditLimit (c + a) ltv ≤ creditLimit c ltv + creditLimit a ltv + 1 := by
  rw [creditLimit_eq_ediv ltv hc, creditLimit_eq_ediv ltv ha,
    creditLimit_eq_ediv ltv (add_nonneg hc ha), add_mul]
  omega

theorem stateInv_initializeContract (a b u : Addr) {s : State}
    (h : StateInv s) : StateInv (initializeContract a b u s).2 := by
  obtain ⟨hltv, hpos⟩ := h
  unfold initializeContract
  split
  · exact ⟨hltv, hpos⟩
  · exact ⟨rfl, hpos⟩

theorem stateInv_deposit (ctx : CallCtx) (u : Addr) (a : Int) {s : State}
    (h : StateInv s) : StateInv (deposit_collateral ctx u a s).2 := by
  obtain ⟨hltv, hpos⟩ := h
  unfold deposit_collateral
  dsimp only
  split
  · exact ⟨hltv, hpos⟩
  split
  · exact ⟨hltv, hpos⟩
  rename_i hamt
  split
  · exact ⟨hltv, hpos⟩
  split
  · exact ⟨hltv, hpos⟩
  refine ⟨hltv, ?_⟩
  intro u' p' hp'
  simp only [setPos] at hp'
  by_cases hu : u' = u
  · rw [if_pos hu] at hp'
    injection hp' with hp'
    subst hp'
    cases hsp : s.positions u with
    | none =>
      simp only [hsp, Option.getD_none, PosInv]
      refine ⟨by omega, by omega, ?_⟩
      exact creditLimit_nonneg 7000 (by omega)
    | some p0 =>
      obtain ⟨h1, h2, h3⟩ := hpos u p0 hsp
      simp only [hsp, Option.getD_some, PosInv]
      refine ⟨by omega, h2, ?_⟩
      exact h3.trans (creditLimit_le_creditLimit 7000 h1 (by omega))
  · rw [if_neg hu] at hp'
    exact hpos u' p' hp'

theorem stateInv_borrow (ctx : CallCtx) (u : Addr) (a : Int) {s : State}
    (h : StateInv s) : StateInv (borrow ctx u a s).2 := by
  obtain ⟨hltv, hpos⟩ := h
  unfold borrow
  dsimp only
  split
  · exact ⟨hltv, hpos⟩
  split
  · exact ⟨hltv, hpos⟩
  rename_i hamt
  split
  · exact ⟨hltv, hpos⟩
  rename_i p0 hsp
  split
  · exact ⟨hltv, hpos⟩
  rename_i hlim
  split
  · exact ⟨hltv, hpos⟩
  split
  · exact ⟨hltv, hpos⟩
  refine ⟨hltv, ?_⟩
  intro u' p' hp'
  simp only [setPos] at hp'
  by_cases hu : u' = u
  · rw [if_pos hu] at hp'
    injection hp' with hp'
    subst hp'
    obtain ⟨h1, h2, h3⟩ := hpos u p0 hsp
    rw [hltv] at hlim
    simp only [PosInv]
    exact ⟨h1, by omega, by omega⟩
  · rw [if_neg hu] at hp'
    exact hpos u' p' hp'

theorem stateInv_repay (ctx : CallCtx) (u : Addr) (a : Int) {s : State}
    (h : StateInv s) : StateInv (repay ctx u a s).2 := by
  obtain ⟨hltv, hpos⟩ := h
  unfold repay
  split
  · exact ⟨hltv, hpos⟩
  split
  · exact ⟨hltv, hpos⟩
  rename_i hamt
  split
  · exact ⟨hltv, hpos⟩
  rename_i p0 hsp
  split
  · exact ⟨hltv, hpos⟩
  rename_i hover
  split
  · exact ⟨hltv, hpos⟩
  split
  · exact ⟨hltv, hpos⟩
  refine ⟨hltv, ?_⟩
  intro u' p' hp'
  simp only [setPos] at hp'
  by_cases hu : u' = u
  · rw [if_pos hu] at hp'
    injection hp' with hp'
    subst hp'
    obtain ⟨h1, h2, h3⟩ := hpos u p0 hsp
    simp only [PosInv]
    exact ⟨h1, by omega, by omega⟩
  · rw [if_neg hu] at hp'
    exact hpos u' p' hp'

theorem stateInv_withdraw (ctx : CallCtx) (u : Addr) (a : Int) {s : State}
    (h : StateInv s) : StateInv (withdraw_collateral ctx u a s).2 := by
  obtain ⟨hltv, hpos⟩ := h
  unfold withdraw_collateral
  dsimp only
  split
  · exact ⟨hltv, hpos⟩
  split
  · exact ⟨hltv, hpos⟩
  rename_i hamt
  split
  · exact ⟨hltv, hpos⟩
  rename_i p0 hsp
  split
  · exact ⟨hltv, hpos⟩
  rename_i hbalc
  split
  · exact ⟨hltv, hpos⟩
  rename_i hlim
  split
  · exact ⟨hltv, hpos⟩
  split
  · exact ⟨hltv, hpos⟩
  refine ⟨hltv, ?_⟩
  intro u' p' hp'
  simp only [setPos] at hp'
  by_cases hu : u' = u
  · rw [if_pos hu] at hp'
    injection hp' with hp'
    subst hp'
    obtain ⟨h1, h2, h3⟩ := hpos u p0 hsp
    rw [hltv] at hlim
    simp only [PosInv]
    exact ⟨by omega, h2, by omega⟩
  · rw [if_neg hu] at hp'
    exact hpos u' p' hp'

theorem stateInv_step (ctx : CallCtx) (op : Op) {s : State} (h : StateInv s) :
    StateInv (step ctx op s) := by
  cases op with
  | opInit a b u => exact stateInv_initializeContract a b u h
  | opDeposit u a => exact stateInv_deposit ctx u a h
  | opBorrow u a => exact stateInv_borrow ctx u a h
  | opRepay u a => exact stateInv_repay ctx u a h
  | opWithdraw u a => exact stateInv_withdraw ctx u a h

theorem stateInv_initState (bal0 : Addr → Addr → Int) :
    StateInv (initState bal0) := by
  refine ⟨rfl, ?_⟩
  intro u p hp
  simp only [initState] at hp
  cases hp

theorem stateInv_run (bal0 : Addr → Addr → Int) (l : List (CallCtx × Op)) :
    StateInv (run bal0 l) := by
  suffices h : ∀ s : State, StateInv s →
      StateInv (l.foldl (fun s p => step p.1 p.2 s) s) from
    h _ (stateInv_initState bal0)
  induction l with
  | nil => exact fun s hs => hs
  | cons hd tl ih =>
    intro s hs
    exact ih _ (stateInv_step hd.1 hd.2 hs)

theorem deposit_ok_or_eq (ctx : CallCtx) (u : Addr) (a : Int) (s : State) :
    (deposit_collateral ctx u a s).1 = Outcome.ok ∨
    (deposit_collateral ctx u a s).2 = s := by
  unfold deposit_collateral
  dsimp only
  split
  · exact Or.inr rfl
  split
  · exact Or.inr rfl
  split
  · exact Or.inr rfl
  split
  · exact Or.inr rfl
  exact Or.inl rfl

theorem borrow_ok_or_eq (ctx : CallCtx) (u : Addr) (a : Int) (s : State) :
    (borrow ctx u a s).1 = Outcome.ok ∨ (borrow ctx u a s).2 = s := by
  unfold borrow
  dsimp only
  split
  · exact Or.inr rfl
  split
  · exact Or.inr rfl
  split
  · exact Or.inr rfl
  split
  · exact Or.inr rfl
  split
  · exact Or.inr rfl
  split
  · exact Or.inr rfl
  exact Or.inl rfl

theorem repay_ok_or_eq (ctx : CallCtx) (u : Addr) (a : Int) (s : State) :
    (repay ctx u a s).1 = Outcome.ok ∨ (repay ctx u a s).2 = s := by
  unfold repay
  split
  · exact Or.inr rfl
  split
  · exact Or.inr rfl
  split
  · exact Or.inr rfl
  split
  · exact Or.inr rfl
  split
  · exact Or.inr rfl
  split
  · exact Or.inr rfl
  exact Or.inl rfl

theorem withdraw_ok_or_eq (ctx : CallCtx) (u : Addr) (a : Int) (s : State) :
    (withdraw_collateral ctx u a s).1 = Outcome.ok ∨
    (withdraw_collateral ctx u a s).2 = s := by
  unfold withdraw_collateral
  dsimp only
  split
  · exact Or.inr rfl
  split
  · exact Or.inr rfl
  split
  · exact Or.inr rfl
  split
  · exact Or.inr rfl
  split
  · exact Or.inr rfl
  split
  · exact Or.inr rfl
  split
  · exact Or.inr rfl
  exact Or.inl rfl

/-- C1: starting from the empty state, after any sequence of public
operations (each call either fully commits or leaves the state unchanged),
every position stored in the Position Ledger satisfies `collateral ≥ 0`,
`borrowed ≥ 0` and `borrowed ≤ floor(collateral * ltvRatio / 10000)`, where
`ltvRatio` is the stored ratio (defaulting to 7000). -/
theorem C1_reachable_invariant (bal0 : Addr → Addr → Int)
    (l : List (CallCtx × Op)) (u : Addr) (p : UserPosition)
    (h : (run bal0 l).positions u = some p) :
    0 ≤ p.collateral ∧ 0 ≤ p.borrowed ∧
    p.borrowed ≤ creditLimit p.collateral (((run bal0 l).ltvRatio).getD 7000) := by
  obtain ⟨hltv, hpos⟩ := stateInv_run bal0 l
  rw [hltv]
  exact hpos u p h

/-- C1 witness: the invariant holds at the position stored for user 3 after
initialize; deposit 1000; borrow 700. -/
theorem C1_witness :
    (run demoBal demoOps).positions 3 = some demoPos ∧
    (0 ≤ demoPos.collateral ∧ 0 ≤ demoPos.borrowed ∧
      demoPos.borrowed ≤
        creditLimit demoPos.collateral (((run demoBal demoOps).ltvRatio).getD 7000)) :=
  ⟨by decide, C1_reachable_invariant demoBal demoOps 3 demoPos (by decide)⟩

/-- C6: whenever a mutating operation does not complete successfully (panic
from a non-positive amount, failed authorization or failed token transfer,
or a structured error), the Position Ledger is exactly what it was before
the call. -/
theorem C6_no_mutation_on_failure (ctx : CallCtx) (u : Addr) (a : Int)
    (s : State) :
    ((deposit_collateral ctx u a s).1 ≠ Outcome.ok →
      (deposit_collateral ctx u a s).2.positions = s.positions) ∧
    ((borrow ctx u a s).1 ≠ Outcome.ok →
      (borrow ctx u a s).2.positions = s.positions) ∧
    ((repay ctx u a s).1 ≠ Outcome.ok →
      (repay ctx u a s).2.positions = s.positions) ∧
    ((withdraw_collateral ctx u a s).1 ≠ Outcome.ok →
      (withdraw_collateral ctx u a s).2.positions = s.positions) := by
  refine ⟨fun h => ?_, fun h => ?_, fun h => ?_, fun h => ?_⟩
  · rw [(deposit_ok_or_eq ctx u a s).resolve_left h]
  · rw [(borrow_ok_or_eq ctx u a s).resolve_left h]
  · rw [(repay_ok_or_eq ctx u a s).resolve_left h]
  · rw [(withdraw_ok_or_eq ctx u a s).resolve_left h]

/-- C6 witness: calls with amount 0 abort and leave the ledger unchanged. -/
theorem C6_witness :
    ((deposit_collateral allAuthCtx 3 0 demoState).1 ≠ Outcome.ok ∧
      (deposit_collateral allAuthCtx 3 0 demoState).2.positions = demoState.positions) ∧
    ((borrow allAuthCtx 3 0 demoState).1 ≠ Outcome.ok ∧
      (borrow allAuthCtx 3 0 demoState).2.positions = demoState.positions) ∧
    ((repay allAuthCtx 3 0 demoState).1 ≠ Outcome.ok ∧
      (repay allAuthCtx 3 0 demoState).2.positions = demoState.positions) ∧
    ((withdraw_collateral allAuthCtx 3 0 demoState).1 ≠ Outcome.ok ∧
      (withdraw_collateral allAuthCtx 3 0 demoState).2.positions = demoState.positions) :=
  ⟨⟨by decide, (C6_no_mutation_on_failure allAuthCtx 3 0 demoState).1 (by decide)⟩,
   ⟨by decide, (C6_no_mutation_on_failure allAuthCtx 3 0 demoState).2.1 (by decide)⟩,
   ⟨by decide, (C6_no_mutation_on_failure allAuthCtx 3 0 demoState).2.2.1 (by decide)⟩,
   ⟨by decide, (C6_no_mutation_on_failure allAuthCtx 3 0 demoState).2.2.2 (by decide)⟩⟩

/-- C7: on a fresh configuration the first `initialize` succeeds and
persists admin, the two asset addresses and `ltvRatio = 7000`; every later
`initialize` returns `AlreadyInitialized` and leaves the state exactly as
the first call left it. -/
theorem C7_init_once (a b u : Addr) (s : State) (h : s.admin = none) :
    (initializeContract a b u s).1 = Outcome.ok ∧
    (initializeContract a b u s).2.admin = some a ∧
    (initializeContract a b u s).2.benjiToken = some b ∧
    (initializeContract a b u s).2.usdcToken = some u ∧
    (initializeContract a b u s).2.ltvRatio = some 7000 ∧
    ∀ (t : State), t.admin ≠ none → ∀ a' b' u',
      initializeContract a' b' u' t =
        (Outcome.err Error.AlreadyInitialized, t) := by
  refine ⟨?_, ?_, ?_, ?_, ?_, fun t ht a' b' u' => ?_⟩
  · simp [initializeContract, h]
  · simp [initializeContract, h]
  · simp [initializeContract, h]
  · simp [initializeContract, h]
  · simp [initializeContract, h]
  · unfold initializeContract
    rw [if_pos (Option.isSome_iff_ne_none.mpr ht)]

/-- C7 witness: concrete double-initialize from the empty state. -/
theorem C7_witness :
    (initState demoBal).admin = none ∧
    ((initializeContract 0 1 2 (initState demoBal)).1 = Outcome.ok ∧
      (initializeContract 0 1 2 (initState demoBal)).2.admin = some 0 ∧
      (initializeContract 0 1 2 (initState demoBal)).2.benjiToken = some 1 ∧
      (initializeContract 0 1 2 (initState demoBal)).2.usdcToken = some 2 ∧
      (initializeContract 0 1 2 (initState demoBal)).2.ltvRatio = some 7000 ∧
      ∀ (t : State), t.admin ≠ none → ∀ a' b' u',
        initializeContract a' b' u' t =
          (Outcome.err Error.AlreadyInitialized, t)) :=
  ⟨by decide, C7_init_once 0 1 2 (initState demoBal) (by decide)⟩

/-- C8 counterexample: `initialize` performs no caller authentication — the
source never calls `require_auth` there — yet the claim requires every
public operation (including `initialize`) to reject unauthorized callers
before any state mutation.  The call below carries no authorization context
at all and still succeeds and mutates the configuration. -/
theorem C8_counterexample :
    (initializeContract 0 1 2 (initState demoBal)).1 = Outcome.ok ∧
    (initState demoBal).admin = none ∧
    (initializeContract 0 1 2 (initState demoBal)).2.admin = some 0 := by
  exact ⟨rfl, rfl, rfl⟩

/-- C8 (amended): the four position-mutating operations (deposit, borrow,
repay, withdraw) authenticate the supplied user first and abort, with no
state change, when the user has not authorized the call; `initialize` and
the read-only queries perform no caller authentication. -/
theorem C8_auth_check (ctx : CallCtx) (u : Addr) (a : Int) (s : State)
    (h : ctx.auth u = false) :
    deposit_collateral ctx u a s = (Outcome.panic, s) ∧
    borrow ctx u a s = (Outcome.panic, s) ∧
    repay ctx u a s = (Outcome.panic, s) ∧
    withdraw_collateral ctx u a s = (Outcome.panic, s) := by
  refine ⟨?_, ?_, ?_, ?_⟩ <;>
    simp [deposit_collateral, borrow, repay, withdraw_collateral, h]

/-- C8 witness: with no authorization, every mutating position operation
aborts with the state unchanged. -/
theorem C8_witness :
    noAuthCtx.auth 3 = false ∧
    deposit_collateral noAuthCtx 3 5 demoState = (Outcome.panic, demoState) ∧
    borrow noAuthCtx 3 5 demoState = (Outcome.panic, demoState) ∧
    repay noAuthCtx 3 5 demoState = (Outcome.panic, demoState) ∧
    withdraw_collateral noAuthCtx 3 5 demoState = (Outcome.panic, demoState) :=
  ⟨by decide, (C8_auth_check noAuthCtx 3 5 demoState (by decide)).1,
    (C8_auth_check noAuthCtx 3 5 demoState (by decide)).2.1,
    (C8_auth_check noAuthCtx 3 5 demoState (by decide)).2.2.1,
    (C8_auth_check noAuthCtx 3 5 demoState (by decide)).2.2.2⟩

theorem tokenTransfer_some (ctx : CallCtx) (bal : Addr → Addr → Int)
    (tok fromAddr toAddr : Addr) (amount : Int)
    (hau : transferAuth ctx fromAddr = true) (h0 : 0 ≤ amount)
    (hbal : amount ≤ bal tok fromAddr) :
    tokenTransfer ctx bal tok fromAddr toAddr amount =
      some (setBal (setBal bal tok fromAddr (bal tok fromAddr - amount))
        tok toAddr (bal tok toAddr + amount)) := by
  unfold tokenTransfer
  rw [hau]
  simp only [not_true_eq_false, if_false]
  rw [if_neg (by omega), if_neg (by omega)]

theorem deposit_ok_shape (ctx : CallCtx) (u : Addr) (a : Int) (s : State)
    (benji : Addr) (hauth : ctx.auth u = true) (ha : 0 < a)
    (hben : s.benjiToken = some benji) (hbal : a ≤ s.bal benji u) :
    deposit_collateral ctx u a s =
      (Outcome.ok,
        { s with
          bal := setBal (setBal s.bal benji u (s.bal benji u - a)) benji
            ctx.contractAddr (s.bal benji ctx.contractAddr + a)
          positions := setPos s.positions u
            { collateral := (get_position ctx u s).collateral + a
              borrowed := (get_position ctx u s).borrowed
              last_update := ctx.now } }) := by
  unfold deposit_collateral
  rw [hauth]
  simp only [not_true_eq_false, if_false]
  rw [if_neg (by omega), hben]
  dsimp only
  rw [tokenTransfer_some ctx s.bal benji u ctx.contractAddr a
    (by simp [transferAuth, hauth]) (by omega) hbal]
  rfl

theorem borrow_ok_shape (ctx : CallCtx) (u : Addr) (a : Int) (s : State)
    (p : UserPosition) (usdc : Addr)
    (hauth : ctx.auth u = true) (ha : 0 < a)
    (hp : s.positions u = some p)
    (hlim : p.borrowed + a ≤ creditLimit p.collateral ((s.ltvRatio).getD 7000))
    (hus : s.usdcToken = some usdc)
    (hbal : a ≤ s.bal usdc ctx.contractAddr) :
    borrow ctx u a s =
      (Outcome.ok,
        { s with
          bal := setBal (setBal s.bal usdc ctx.contractAddr
              (s.bal usdc ctx.contractAddr - a)) usdc u (s.bal usdc u + a)
          positions := setPos s.positions u
            { collateral := p.collateral
              borrowed := p.borrowed + a
              last_update := ctx.now } }) := by
  unfold borrow
  rw [hauth]
  simp only [not_true_eq_false, if_false]
  rw [if_neg (by omega), hp]
  dsimp only
  rw [if_neg (by omega), hus]
  dsimp only
  rw [tokenTransfer_some ctx s.bal usdc ctx.contractAddr u a
    (by simp [transferAuth]) (by omega) hbal]

theorem repay_ok_shape (ctx : CallCtx) (u : Addr) (a : Int) (s : State)
    (p : UserPosition) (usdc : Addr)
    (hauth : ctx.auth u = true) (ha : 0 < a)
    (hp : s.positions u = some p)
    (hle : a ≤ p.borrowed)
    (hus : s.usdcToken = some usdc)
    (hbal : a ≤ s.bal usdc u) :
    repay ctx u a s =
      (Outcome.ok,
        { s with
          bal := setBal (setBal s.bal usdc u (s.bal usdc u - a)) usdc
            ctx.contractAddr (s.bal usdc ctx.contractAddr + a)
          positions := setPos s.positions u
            { collateral := p.collateral
              borrowed := p.borrowed - a
              last_update := ctx.now } }) := by
  unfold repay
  rw [hauth]
  simp only [not_true_eq_false, if_false]
  rw [if_neg (by omega), hp]
  dsimp only
  rw [if_neg (by omega), hus]
  dsimp only
  rw [tokenTransfer_some ctx s.bal usdc u ctx.contractAddr a
    (by simp [transferAuth, hauth]) (by omega) hbal]

theorem withdraw_ok_shape (ctx : CallCtx) (u : Addr) (a : Int) (s : State)
    (p : UserPosition) (benji : Addr)
    (hauth : ctx.auth u = true) (ha : 0 < a)
    (hp : s.positions u = some p)
    (hcol : a ≤ p.collateral)
    (hlim : p.borrowed ≤ creditLimit (p.collateral - a) ((s.ltvRatio).getD 7000))
    (hben : s.benjiToken = some benji)
    (hbal : a ≤ s.bal benji ctx.contractAddr) :
    withdraw_collateral ctx u a s =
      (Outcome.ok,
        { s with
          bal := setBal (setBal s.bal benji ctx.contractAddr
              (s.bal benji ctx.contractAddr - a)) benji u (s.bal benji u + a)
          positions := setPos s.positions u
            { collateral := p.collateral - a
              borrowed := p.borrowed
              last_update := ctx.now } }) := by
  unfold withdraw_collateral
  rw [hauth]
  simp only [not_true_eq_false, if_false]
  rw [if_neg (by omega), hp]
  dsimp only
  rw [if_neg (by omega)]
  rw [if_neg (by omega), hben]
  dsimp only
  rw [tokenTransfer_some ctx s.bal benji ctx.contractAddr u a
    (by simp [transferAuth]) (by omega) hbal]

theorem get_available_credit_eq (ctx : CallCtx) (u : Addr) (s : State)
    (hb : (get_position ctx u s).borrowed = 0)
    (hc : 0 ≤ (get_position ctx u s).collateral) :
    get_available_credit ctx u s =
      creditLimit (get_position ctx u s).collateral ((s.ltvRatio).getD 7000) := by
  unfold get_available_credit
  dsimp only
  rw [hb, sub_zero, if_neg (not_lt.mpr (creditLimit_nonneg _ hc))]

/-- C2 counterexample: at LTV 7000, depositing 5 on existing collateral 5
raises the user's available credit from 3 to 7 — an increase of 4, not
`floor(5 * 7000 / 10000) = 3`; and depositing 1 for a fresh user leaves the
available credit at 0 (not a strict increase), though `1 > 0`. -/
theorem C2_counterexample :
    ((deposit_collateral allAuthCtx 3 5 smallState).1 = Outcome.ok ∧
      get_available_credit allAuthCtx 3 smallState = 3 ∧
      get_available_credit allAuthCtx 3
        (deposit_collateral allAuthCtx 3 5 smallState).2 = 7 ∧
      (7 : Int) - 3 ≠ creditLimit 5 7000) ∧
    ((deposit_collateral allAuthCtx 4 1 smallState).1 = Outcome.ok ∧
      get_available_credit allAuthCtx 4 smallState = 0 ∧
      get_available_credit allAuthCtx 4
        (deposit_collateral allAuthCtx 4 1 smallState).2 = 0) := by
  exact ⟨⟨by decide, by decide, by decide, by decide⟩,
    ⟨by decide, by decide, by decide⟩⟩

/-- C2 (amended): a successful deposit of `a > 0` by a user whose position
has `borrowed = 0` (the claim ignores the borrowed amount) never decreases
`getAvailableCredit`; the increase lies between `floor(a*ltv/10000)` and
`floor(a*ltv/10000) + 1` inclusive — it is not in general equal to
`floor(a*ltv/10000)`, and it is zero (not strict) when `a*ltv < 10000`. -/
theorem C2_deposit_credit_bounds (ctx : CallCtx) (u : Addr) (a : Int)
    (s : State) (benji : Addr)
    (hauth : ctx.auth u = true) (ha : 0 < a)
    (hben : s.benjiToken = some benji) (hbal : a ≤ s.bal benji u)
    (hc : 0 ≤ (get_position ctx u s).collateral)
    (hb : (get_position ctx u s).borrowed = 0) :
    (deposit_collateral ctx u a s).1 = Outcome.ok ∧
    get_available_credit ctx u s + creditLimit a ((s.ltvRatio).getD 7000) ≤
      get_available_credit ctx u (deposit_collateral ctx u a s).2 ∧
    get_available_credit ctx u (deposit_collateral ctx u a s).2 ≤
      get_available_credit ctx u s + creditLimit a ((s.ltvRatio).getD 7000) + 1 := by
  have h2 : get_position ctx u (deposit_collateral ctx u a s).2 =
      { collateral := (get_position ctx u s).collateral + a
        borrowed := (get_position ctx u s).borrowed
        last_update := ctx.now } := by
    rw [deposit_ok_shape ctx u a s benji hauth ha hben hbal]
    unfold get_position
    simp [setPos]
  have hltv2 : ((deposit_collateral ctx u a s).2).ltvRatio = s.ltvRatio := by
    rw [deposit_ok_shape ctx u a s benji hauth ha hben hbal]
  have h3 : get_available_credit ctx u (deposit_collateral ctx u a s).2 =
      creditLimit ((get_position ctx u s).collateral + a)
        ((s.ltvRatio).getD 7000) := by
    rw [get_available_credit_eq ctx u _ (by rw [h2]; exact hb)
      (by rw [h2]; dsimp only; omega), h2, hltv2]
  refine ⟨by rw [deposit_ok_shape ctx u a s benji hauth ha hben hbal], ?_, ?_⟩
  · rw [get_available_credit_eq ctx u s hb hc, h3]
    exact (creditLimit_add_bounds _ hc (le_of_lt ha)).1
  · rw [get_available_credit_eq ctx u s hb hc, h3]
    exact (creditLimit_add_bounds _ hc (le_of_lt ha)).2

/-- C2 witness: depositing 5 on collateral 5 at LTV 7000 moves the available
credit from 3 to within `[3 + 3, 3 + 3 + 1]` (it is in fact 7). -/
theorem C2_witness :
    (allAuthCtx.auth 3 = true ∧ (0 : Int) < 5 ∧
      smallState.benjiToken = some 1 ∧ (5 : Int) ≤ smallState.bal 1 3 ∧
      0 ≤ (get_position allAuthCtx 3 smallState).collateral ∧
      (get_position allAuthCtx 3 smallState).borrowed = 0) ∧
    ((deposit_collateral allAuthCtx 3 5 smallState).1 = Outcome.ok ∧
      get_available_credit allAuthCtx 3 smallState +
          creditLimit 5 ((smallState.ltvRatio).getD 7000) ≤
        get_available_credit allAuthCtx 3
          (deposit_collateral allAuthCtx 3 5 smallState).2 ∧
      get_available_credit allAuthCtx 3
          (deposit_collateral allAuthCtx 3 5 smallState).2 ≤
        get_available_credit allAuthCtx 3 smallState +
          creditLimit 5 ((smallState.ltvRatio).getD 7000) + 1) :=
  ⟨⟨by decide, by decide, by decide, by decide, by decide, by decide⟩,
    C2_deposit_credit_bounds allAuthCtx 3 5 smallState 1 (by decide) (by decide)
      (by decide) (by decide) (by decide) (by decide)⟩

/-- C3: for an authorized user and `a > 0`: with no stored position, borrow
fails with `InsufficientCollateral`; with a stored position whose new debt
`borrowed + a` would exceed `floor(collateral * ltvRatio / 10000)` it fails
with `ExceedsCreditLimit`; otherwise (with the borrowed-asset token
configured and sufficiently funded) it succeeds and increases `borrowed` by
exactly `a`. -/
theorem C3_borrow_spec (ctx : CallCtx) (u : Addr) (a : Int) (s : State)
    (hauth : ctx.auth u = true) (ha : 0 < a) :
    (s.positions u = none →
      borrow ctx u a s = (Outcome.err Error.InsufficientCollateral, s)) ∧
    (∀ p, s.positions u = some p →
      (creditLimit p.collateral ((s.ltvRatio).getD 7000) < p.borrowed + a →
        borrow ctx u a s = (Outcome.err Error.ExceedsCreditLimit, s)) ∧
      (p.borrowed + a ≤ creditLimit p.collateral ((s.ltvRatio).getD 7000) →
        ∀ usdc, s.usdcToken = some usdc → a ≤ s.bal usdc ctx.contractAddr →
          (borrow ctx u a s).1 = Outcome.ok ∧
          (borrow ctx u a s).2.positions u =
            some { collateral := p.collateral, borrowed := p.borrowed + a,
                   last_update := ctx.now })) := by
  refine ⟨fun hp => ?_, fun p hp =>
    ⟨fun hgt => ?_, fun hle usdc hus hbal => ?_⟩⟩
  · unfold borrow
    rw [hauth]
    simp only [not_true_eq_false, if_false]
    rw [if_neg (by omega), hp]
  · unfold borrow
    rw [hauth]
    simp only [not_true_eq_false, if_false]
    rw [if_neg (by omega), hp]
    dsimp only
    rw [if_pos (by omega)]
  · rw [borrow_ok_shape ctx u a s p usdc hauth ha hp hle hus hbal]
    exact ⟨rfl, by simp [setPos]⟩

/-- C3 witness: from collateral 1000 at LTV 7000 and no debt, borrowing 700
succeeds (debt becomes 700), borrowing 701 fails with `ExceedsCreditLimit`,
and after borrowing 700 the available credit is 0. -/
theorem C3_witness :
    ((borrow allAuthCtx 3 700 depositedState).1 = Outcome.ok ∧
      (borrow allAuthCtx 3 700 depositedState).2.positions 3 =
        some { collateral := 1000, borrowed := 700, last_update := 0 }) ∧
    borrow allAuthCtx 3 701 depositedState =
      (Outcome.err Error.ExceedsCreditLimit, depositedState) ∧
    get_available_credit allAuthCtx 3 (borrow allAuthCtx 3 700 depositedState).2 = 0 :=
  ⟨((C3_borrow_spec allAuthCtx 3 700 depositedState (by decide) (by decide)).2
      { collateral := 1000, borrowed := 0, last_update := 0 } (by decide)).2
      (by decide) 2 (by decide) (by decide),
   ((C3_borrow_spec allAuthCtx 3 701 depositedState (by decide) (by decide)).2
      { collateral := 1000, borrowed := 0, last_update := 0 } (by decide)).1
      (by decide),
   by decide⟩

/-- C4: for an authorized user with a stored position and `a > 0`:
withdrawal of more than the collateral fails with `InsufficientBalance`;
otherwise, if the remaining collateral would not cover the debt
(`borrowed > floor((collateral - a) * ltvRatio / 10000)`) it fails with
`InsufficientCollateral` and mutates nothing; otherwise (with the
collateral token configured and funded) it succeeds and decreases
`collateral` by exactly `a`. -/
theorem C4_withdraw_spec (ctx : CallCtx) (u : Addr) (a : Int) (s : State)
    (p : UserPosition) (hauth : ctx.auth u = true) (ha : 0 < a)
    (hp : s.positions u = some p) :
    (p.collateral < a →
      withdraw_collateral ctx u a s =
        (Outcome.err Error.InsufficientBalance, s)) ∧
    (a ≤ p.collateral →
      creditLimit (p.collateral - a) ((s.ltvRatio).getD 7000) < p.borrowed →
      withdraw_collateral ctx u a s =
        (Outcome.err Error.InsufficientCollateral, s)) ∧
    (a ≤ p.collateral →
      p.borrowed ≤ creditLimit (p.collateral - a) ((s.ltvRatio).getD 7000) →
      ∀ benji, s.benjiToken = some benji → a ≤ s.bal benji ctx.contractAddr →
        (withdraw_collateral ctx u a s).1 = Outcome.ok ∧
        (withdraw_collateral ctx u a s).2.positions u =
          some { collateral := p.collateral - a, borrowed := p.borrowed,
                 last_update := ctx.now }) := by
  refine ⟨fun hlt => ?_, fun hcol hgt => ?_, fun hcol hlim benji hben hbal => ?_⟩
  · unfold withdraw_collateral
    rw [hauth]
    simp only [not_true_eq_false, if_false]
    rw [if_neg (by omega), hp]
    dsimp only
    rw [if_pos (by omega)]
  · unfold withdraw_collateral
    rw [hauth]
    simp only [not_true_eq_false, if_false]
    rw [if_neg (by omega), hp]
    dsimp only
    rw [if_neg (by omega), if_pos (by omega)]
  · rw [withdraw_ok_shape ctx u a s p benji hauth ha hp hcol hlim hben hbal]
    exact ⟨rfl, by simp [setPos]⟩

/-- C4 witness: after deposit 1000 and borrow 700 at LTV 7000, withdrawing
600 fails with `InsufficientCollateral` (limit of the remaining 400 is
280 < 700) and withdrawing 2000 fails with `InsufficientBalance`; with no
debt, withdrawing 600 of 1000 succeeds, leaving collateral 400. -/
theorem C4_witness :
    withdraw_collateral allAuthCtx 3 600 demoState =
      (Outcome.err Error.InsufficientCollateral, demoState) ∧
    withdraw_collateral allAuthCtx 3 2000 demoState =
      (Outcome.err Error.InsufficientBalance, demoState) ∧
    ((withdraw_collateral allAuthCtx 3 600 depositedState).1 = Outcome.ok ∧
      (withdraw_collateral allAuthCtx 3 600 depositedState).2.positions 3 =
        some { collateral := 400, borrowed := 0, last_update := 0 }) :=
  ⟨(C4_withdraw_spec allAuthCtx 3 600 demoState demoPos (by decide) (by decide)
      (by decide)).2.1 (by decide) (by decide),
   (C4_withdraw_spec allAuthCtx 3 2000 demoState demoPos (by decide) (by decide)
      (by decide)).1 (by decide),
   (C4_withdraw_spec allAuthCtx 3 600 depositedState
      { collateral := 1000, borrowed := 0, last_update := 0 } (by decide)
      (by decide) (by decide)).2.2 (by decide) (by decide) 1 (by decide)
      (by decide)⟩

/-- C5: for an authorized user with a stored position and `a > 0`: if
`a > borrowed` the call aborts fatally (no structured error) with no state
change, so the stored position keeps its previous `borrowed`; if
`a ≤ borrowed` (with the borrowed-asset token configured and the user
funded) it succeeds and decreases `borrowed` by exactly `a` — full
repayment `a = borrowed` included. -/
theorem C5_repay_spec (ctx : CallCtx) (u : Addr) (a : Int) (s : State)
    (p : UserPosition) (hauth : ctx.auth u = true) (ha : 0 < a)
    (hp : s.positions u = some p) :
    (p.borrowed < a →
      repay ctx u a s = (Outcome.panic, s) ∧
      (repay ctx u a s).2.positions u = some p) ∧
    (a ≤ p.borrowed →
      ∀ usdc, s.usdcToken = some usdc → a ≤ s.bal usdc u →
        (repay ctx u a s).1 = Outcome.ok ∧
        (repay ctx u a s).2.positions u =
          some { collateral := p.collateral, borrowed := p.borrowed - a,
                 last_update := ctx.now }) := by
  refine ⟨fun hlt => ?_, fun hle usdc hus hbal => ?_⟩
  · have hpanic : repay ctx u a s = (Outcome.panic, s) := by
      unfold repay
      rw [hauth]
      simp only [not_true_eq_false, if_false]
      rw [if_neg (by omega), hp]
      dsimp only
      rw [if_pos (by omega)]
    exact ⟨hpanic, by rw [hpanic]; exact hp⟩
  · rw [repay_ok_shape ctx u a s p usdc hauth ha hp hle hus hbal]
    exact ⟨rfl, by simp [setPos]⟩

/-- C5 witness: with debt 700, repaying 800 aborts fatally and the position
still records 700 borrowed; repaying the full 700 succeeds and leaves 0. -/
theorem C5_witness :
    (repay allAuthCtx 3 800 demoState = (Outcome.panic, demoState) ∧
      (repay allAuthCtx 3 800 demoState).2.positions 3 = some demoPos) ∧
    ((repay allAuthCtx 3 700 demoState).1 = Outcome.ok ∧
      (repay allAuthCtx 3 700 demoState).2.positions 3 =
        some { collateral := 1000, borrowed := 0, last_update := 0 }) :=
  ⟨(C5_repay_spec allAuthCtx 3 800 demoState demoPos (by decide) (by decide)
      (by decide)).1 (by decide),
   (C5_repay_spec allAuthCtx 3 700 demoState demoPos (by decide) (by decide)
      (by decide)).2 (by decide) 2 (by decide) (by decide)⟩

/-- C9: `getAvailableCredit` returns
`max 0 (floor(collateral * ltvRatio / 10000) - borrowed)` and is never
negative; for a user with no stored position, `getPosition` returns a
position with zero collateral and zero borrowed and `getAvailableCredit`
returns 0.  Both queries are pure functions of the state (they return a
value and no state, so they cannot fail or mutate anything). -/
theorem C9_queries (ctx : CallCtx) (u : Addr) (s : State) :
    get_available_credit ctx u s =
      max 0 (creditLimit (get_position ctx u s).collateral
          ((s.ltvRatio).getD 7000) - (get_position ctx u s).borrowed) ∧
    0 ≤ get_available_credit ctx u s ∧
    (s.positions u = none →
      (get_position ctx u s).collateral = 0 ∧
      (get_position ctx u s).borrowed = 0 ∧
      get_available_credit ctx u s = 0) := by
  refine ⟨?_, ?_, fun hp => ?_⟩
  · unfold get_available_credit
    dsimp only
    split <;> omega
  · unfold get_available_credit
    dsimp only
    split <;> omega
  · refine ⟨by unfold get_position; rw [hp]; rfl,
      by unfold get_position; rw [hp]; rfl, ?_⟩
    unfold get_available_credit get_position
    rw [hp]
    simp [creditLimit]

/-- C9 witness: a never-seen user on the empty state gets the zero position
and 0 available credit. -/
theorem C9_witness :
    (initState demoBal).positions 4 = none ∧
    ((get_position allAuthCtx 4 (initState demoBal)).collateral = 0 ∧
      (get_position allAuthCtx 4 (initState demoBal)).borrowed = 0 ∧
      get_available_credit allAuthCtx 4 (initState demoBal) = 0) :=
  ⟨by decide, (C9_queries allAuthCtx 4 (initState demoBal)).2.2 (by decide)⟩

/-- C10: `borrow`, `withdraw_collateral` and `get_available_credit` read the
stored LTV ratio with a fallback default of 7000: on a state with the ratio
absent they produce the same outcome and the same Position Ledger (and the
same credit value) as on the state with ratio 7000, so the credit-limit
computation never fails on a missing ratio and silently uses 7000. -/
theorem C10_ltv_default (ctx : CallCtx) (u : Addr) (a : Int) (s : State) :
    ((borrow ctx u a { s with ltvRatio := none }).1 =
      (borrow ctx u a { s with ltvRatio := some 7000 }).1 ∧
     (borrow ctx u a { s with ltvRatio := none }).2.positions =
      (borrow ctx u a { s with ltvRatio := some 7000 }).2.positions) ∧
    ((withdraw_collateral ctx u a { s with ltvRatio := none }).1 =
      (withdraw_collateral ctx u a { s with ltvRatio := some 7000 }).1 ∧
     (withdraw_collateral ctx u a { s with ltvRatio := none }).2.positions =
      (withdraw_collateral ctx u a { s with ltvRatio := some 7000 }).2.positions) ∧
    get_available_credit ctx u { s with ltvRatio := none } =
      get_available_credit ctx u { s with ltvRatio := some 7000 } := by
  refine ⟨⟨?_, ?_⟩, ⟨?_, ?_⟩, ?_⟩
  · unfold borrow
    dsimp only [Option.getD]
    (repeat' split) <;> rfl
  · unfold borrow
    dsimp only [Option.getD]
    (repeat' split) <;> rfl
  · unfold withdraw_collateral
    dsimp only [Option.getD]
    (repeat' split) <;> rfl
  · unfold withdraw_collateral
    dsimp only [Option.getD]
    (repeat' split) <;> rfl
  · unfold get_available_credit get_position
    dsimp only [Option.getD]

end BondBridge
